import Mathlib

/-!
Verification development for the `gemini-chat-api-rs` client, a Rust library
that talks to an unofficial chat endpoint.  The definitions below are a
shallow embedding of `src/client.rs`, `src/enums.rs`, `src/error.rs` and
`src/utils.rs`:

* Rust `&str` values are modelled as Lean `String`; byte-indexed operations
  (`str::len`, `&s[..k]`, `str::get`) are modelled over the UTF-8 byte
  lengths of the characters (`charSize`), a byte index that is not a
  character boundary yielding `none` exactly where the Rust operation
  panics or returns `None`.
* `serde_json::Value` is modelled by the inductive `Json`, and
  `serde_json::from_str` by the executable recursive-descent `parseJson`
  (whitespace skipping, string escapes including surrogate pairs, the JSON
  number grammar, and a trailing-garbage check, as in serde).
* HTTP / filesystem / randomness effects are passed in explicitly: the
  response text, the HTTP status, the drawn random delta, the upload
  outcome and the persisted conversation list are arguments, and state
  mutation is modelled by returning an updated `Chatbot` record.
* A Rust panic is modelled as `Option.none` at the outermost level.
-/

/-! ## Characters, bytes and Rust string primitives -/

/-- UTF-8 byte size of one scalar value (model of `char::len_utf8`). -/
def charSize (c : Char) : Nat :=
  if c.toNat < 128 then 1
  else if c.toNat < 2048 then 2
  else if c.toNat < 65536 then 3
  else 4

/-- UTF-8 byte length of a character list (model of `str::len`). -/
def utf8LenL : List Char → Nat
  | [] => 0
  | c :: cs => charSize c + utf8LenL cs

/-- UTF-8 byte length of a string. -/
def utf8Len (s : String) : Nat := utf8LenL s.data

/-- Take the first `k` BYTES of a character list; `none` when `k` is not a
character boundary (where Rust `&s[..k]` would panic). -/
def utf8TakeB : List Char → Nat → Option (List Char)
  | _, 0 => some []
  | [], _ + 1 => none
  | c :: cs, k + 1 =>
    if charSize c ≤ k + 1 then (utf8TakeB cs (k + 1 - charSize c)).map (c :: ·)
    else none

/-- Model of the Rust slice `&text[..k]`: `none` models the panic on a
non-boundary index. -/
def byteTruncate (s : String) (k : Nat) : Option String :=
  (utf8TakeB s.data k).map String.mk

/-- Drop the first `k` BYTES of a character list; `none` when `k` is out of
range or not a character boundary (model of `str::get(k..)`). -/
def utf8DropB : List Char → Nat → Option (List Char)
  | cs, 0 => some cs
  | [], _ + 1 => none
  | c :: cs, k + 1 =>
    if charSize c ≤ k + 1 then utf8DropB cs (k + 1 - charSize c)
    else none

/-- Model of `line.get(4..).unwrap_or("")` style access: byte suffix with an
empty-string fallback. -/
def utf8Drop (s : String) (k : Nat) : String :=
  ((utf8DropB s.data k).map String.mk).getD ""

/-- Unicode White_Space code points: the set used by Rust
`char::is_whitespace` (`str::trim`) and by the regex class `\s`. -/
def uniWs (c : Char) : Bool :=
  [0x09, 0x0A, 0x0B, 0x0C, 0x0D, 0x20, 0x85, 0xA0, 0x1680,
   0x2000, 0x2001, 0x2002, 0x2003, 0x2004, 0x2005, 0x2006, 0x2007,
   0x2008, 0x2009, 0x200A, 0x2028, 0x2029, 0x202F, 0x205F, 0x3000].contains c.toNat

/-- Trim White_Space from both ends of a character list. -/
def trimL (l : List Char) : List Char :=
  ((l.dropWhile uniWs).reverse.dropWhile uniWs).reverse

/-- Model of Rust `str::trim`. -/
def rustTrim (s : String) : String := String.mk (trimL s.data)

/-- Boolean prefix test on character lists (model of byte-level
`str::starts_with`, which agrees with the character level on valid UTF-8). -/
def isPre : List Char → List Char → Bool
  | [], _ => true
  | _ :: _, [] => false
  | p :: ps, c :: cs => if p = c then isPre ps cs else false

/-- Model of `str::starts_with` for a string pattern. -/
def strStarts (s p : String) : Bool := isPre p.data s.data

/-- Boolean substring test (model of `str::contains`). -/
def containsList (pat : List Char) : List Char → Bool
  | [] => pat.isEmpty
  | c :: cs => isPre pat (c :: cs) || containsList pat cs

/-- Model of `str::contains` for strings. -/
def containsSub (s pat : String) : Bool := containsList pat.data s.data

/-- Split a character list at every newline character. -/
def splitNL : List Char → List (List Char)
  | [] => [[]]
  | c :: cs =>
    if c = '\n' then [] :: splitNL cs
    else
      match splitNL cs with
      | [] => [[c]]
      | p :: ps => (c :: p) :: ps

/-- Remove one trailing carriage return (for pieces that were followed by a
line feed). -/
def stripCR (l : List Char) : List Char :=
  match l.getLast? with
  | some c => if c = Char.ofNat 13 then l.dropLast else l
  | none => l

/-- Model of Rust `str::lines`: split at `\n`, strip a `\r` that preceded a
`\n`, and do not produce a final empty line for a trailing newline. -/
def rustLines (s : String) : List String :=
  match s.data with
  | [] => []
  | _ =>
    let ps := splitNL s.data
    (ps.dropLast.map (fun p => String.mk (stripCR p))) ++
      (match ps.getLast? with
       | some last => if last.isEmpty then [] else [String.mk last]
       | none => [])

/-! ## JSON values and the serde-style parser -/

/-- Model of `serde_json::Value`.  Numbers keep their source lexeme: no
claim inspects numeric magnitudes, only nullness, strings and arrays. -/
inductive Json where
  | null
  | bool (b : Bool)
  | num (lexeme : String)
  | str (s : String)
  | arr (elems : List Json)
  | obj (fields : List (String × Json))

/-- JSON structural whitespace (the exact serde set). -/
def jsonWsC (c : Char) : Bool :=
  c = ' ' || c = '\t' || c = '\n' || c = Char.ofNat 13

/-- Skip structural whitespace. -/
def skipWs (cs : List Char) : List Char := cs.dropWhile jsonWsC

/-- Value of one hexadecimal digit. -/
def hexVal (c : Char) : Option Nat :=
  if '0' ≤ c ∧ c ≤ '9' then some (c.toNat - 48)
  else if 'a' ≤ c ∧ c ≤ 'f' then some (c.toNat - 87)
  else if 'A' ≤ c ∧ c ≤ 'F' then some (c.toNat - 55)
  else none

/-- Plain JSON string escapes. -/
def escCharOf (c : Char) : Option Char :=
  if c = '"' then some '"'
  else if c = '\\' then some '\\'
  else if c = '/' then some '/'
  else if c = 'b' then some (Char.ofNat 8)
  else if c = 'f' then some (Char.ofNat 12)
  else if c = 'n' then some '\n'
  else if c = 'r' then some (Char.ofNat 13)
  else if c = 't' then some '\t'
  else none

/-- Value of a four-digit hexadecimal escape. -/
def hex4 (a b c d : Char) : Option Nat :=
  match hexVal a, hexVal b, hexVal c, hexVal d with
  | some ha, some hb, some hc, some hd => some (((ha * 16 + hb) * 16 + hc) * 16 + hd)
  | _, _, _, _ => none

/-- Body of a JSON string after the opening quote: returns the decoded
characters and the input remaining after the closing quote.  Handles the
simple escapes and `\uXXXX`, including surrogate pairs, and rejects raw
control characters, as serde does. -/
def parseStrAux : List Char → Option (List Char × List Char)
  | [] => none
  | '"' :: rest => some ([], rest)
  | '\\' :: 'u' :: a :: b :: c :: d :: rest =>
    match hex4 a b c d with
    | none => none
    | some n =>
      if 0xD800 ≤ n ∧ n ≤ 0xDBFF then
        match rest with
        | '\\' :: 'u' :: a2 :: b2 :: c2 :: d2 :: rest2 =>
          match hex4 a2 b2 c2 d2 with
          | none => none
          | some m =>
            if 0xDC00 ≤ m ∧ m ≤ 0xDFFF then
              match parseStrAux rest2 with
              | some (s, r) =>
                some (Char.ofNat (0x10000 + (n - 0xD800) * 0x400 + (m - 0xDC00)) :: s, r)
              | none => none
            else none
        | _ => none
      else if 0xDC00 ≤ n ∧ n ≤ 0xDFFF then none
      else
        match parseStrAux rest with
        | some (s, r) => some (Char.ofNat n :: s, r)
        | none => none
  | '\\' :: e :: rest =>
    match escCharOf e with
    | some c2 =>
      match parseStrAux rest with
      | some (s, r) => some (c2 :: s, r)
      | none => none
    | none => none
  | c :: rest =>
    if c.toNat < 32 then none
    else
      match parseStrAux rest with
      | some (s, r) => some (c :: s, r)
      | none => none

/-- Longest digit run at the front. -/
def takeDigits : List Char → List Char × List Char
  | [] => ([], [])
  | c :: cs =>
    if c.isDigit then
      let (ds, r) := takeDigits cs
      (c :: ds, r)
    else ([], c :: cs)

/-- Optional fraction part of a JSON number. -/
def parseFrac (cs : List Char) : Option (List Char × List Char) :=
  match cs with
  | '.' :: r =>
    let (ds, r2) := takeDigits r
    if ds.isEmpty then none else some ('.' :: ds, r2)
  | _ => some ([], cs)

/-- Optional exponent part of a JSON number. -/
def parseExp (cs : List Char) : Option (List Char × List Char) :=
  match cs with
  | c :: r =>
    if c = 'e' ∨ c = 'E' then
      match r with
      | s :: r2 =>
        if s = '+' ∨ s = '-' then
          let (ds, r3) := takeDigits r2
          if ds.isEmpty then none else some (c :: s :: ds, r3)
        else
          let (ds, r3) := takeDigits r
          if ds.isEmpty then none else some (c :: ds, r3)
      | [] => none
    else some ([], cs)
  | [] => some ([], cs)

/-- JSON number lexeme: `-?(0|[1-9][0-9]*)(\.[0-9]+)?([eE][+-]?[0-9]+)?`. -/
def parseNumLex (cs : List Char) : Option (List Char × List Char) :=
  let sr : List Char × List Char :=
    match cs with
    | '-' :: r => (['-'], r)
    | _ => ([], cs)
  match sr.2 with
  | '0' :: r =>
    match parseFrac r with
    | none => none
    | some (fr, r2) =>
      match parseExp r2 with
      | none => none
      | some (ex, r3) => some (sr.1 ++ '0' :: (fr ++ ex), r3)
  | c :: r =>
    if c.isDigit then
      let (ds, r1) := takeDigits (c :: r)
      match parseFrac r1 with
      | none => none
      | some (fr, r2) =>
        match parseExp r2 with
        | none => none
        | some (ex, r3) => some (sr.1 ++ ds ++ fr ++ ex, r3)
    else none
  | [] => none

/-- Parser modes: one value, array elements, object fields. -/
inductive PMode where
  | val
  | elems (acc : List Json)
  | fields (acc : List (String × Json))

/-- The recursive-descent core, fuelled for structural recursion.  In mode
`val` it parses one JSON value; `elems acc` and `fields acc` continue a
partially parsed array or object. -/
def parseCore : Nat → PMode → List Char → Option (Json × List Char)
  | 0, _, _ => none
  | fuel + 1, .val, cs =>
    match skipWs cs with
    | 'n' :: 'u' :: 'l' :: 'l' :: rest => some (.null, rest)
    | 't' :: 'r' :: 'u' :: 'e' :: rest => some (.bool true, rest)
    | 'f' :: 'a' :: 'l' :: 's' :: 'e' :: rest => some (.bool false, rest)
    | '"' :: rest =>
      match parseStrAux rest with
      | some (s, r) => some (.str (String.mk s), r)
      | none => none
    | '[' :: rest =>
      match skipWs rest with
      | ']' :: r2 => some (.arr [], r2)
      | cs2 => parseCore fuel (.elems []) cs2
    | '\x7b' :: rest =>
      match skipWs rest with
      | '\x7d' :: r2 => some (.obj [], r2)
      | cs2 => parseCore fuel (.fields []) cs2
    | c :: rest =>
      if c = '-' ∨ c.isDigit then
        match parseNumLex (c :: rest) with
        | some (lex, r) => some (.num (String.mk lex), r)
        | none => none
      else none
    | [] => none
  | fuel + 1, .elems acc, cs =>
    match parseCore fuel .val cs with
    | none => none
    | some (v, r) =>
      match skipWs r with
      | ',' :: r2 => parseCore fuel (.elems (v :: acc)) r2
      | ']' :: r2 => some (.arr (v :: acc).reverse, r2)
      | _ => none
  | fuel + 1, .fields acc, cs =>
    match skipWs cs with
    | '"' :: r1 =>
      match parseStrAux r1 with
      | none => none
      | some (k, r2) =>
        match skipWs r2 with
        | ':' :: r3 =>
          match parseCore fuel .val r3 with
          | none => none
          | some (v, r4) =>
            match skipWs r4 with
            | ',' :: r5 => parseCore fuel (.fields ((String.mk k, v) :: acc)) r5
            | '\x7d' :: r5 => some (.obj ((String.mk k, v) :: acc).reverse, r5)
            | _ => none
        | _ => none
    | _ => none

/-- Model of `serde_json::from_str::<Value>`: leading and trailing
whitespace is allowed, anything else after the value is an error. -/
def parseJson (s : String) : Option Json :=
  match parseCore (2 * s.data.length + 4) .val s.data with
  | some (v, rest) => if (skipWs rest).isEmpty then some v else none
  | none => none

/-! ## Data model (`enums.rs`, `error.rs`, `client.rs` structs) -/

/-- `Json` accessors mirroring `serde_json::Value::as_array` etc. -/
def Json.asArr : Json → Option (List Json)
  | .arr xs => some xs
  | _ => none

/-- Model of `Value::as_str`. -/
def Json.asStr : Json → Option String
  | .str s => some s
  | _ => none

/-- Model of `Value::is_null`. -/
def Json.isNull : Json → Bool
  | .null => true
  | _ => false

/-- Available model configurations (`enums.rs::Model`). -/
inductive Model where
  | Unspecified
  | G2_0Flash
  | G2_0FlashThinking
  | G2_5Flash
  | G2_5Pro
  | G2_0ExpAdvanced
  | G2_5ExpAdvanced
deriving DecidableEq, Inhabited

/-- `Model::name`. -/
def Model.name : Model → String
  | .Unspecified => "unspecified"
  | .G2_0Flash => "gemini-2.0-flash"
  | .G2_0FlashThinking => "gemini-2.0-flash-thinking"
  | .G2_5Flash => "gemini-2.5-flash"
  | .G2_5Pro => "gemini-2.5-pro"
  | .G2_0ExpAdvanced => "gemini-2.0-exp-advanced"
  | .G2_5ExpAdvanced => "gemini-2.5-exp-advanced"

/-- `Model::from_name`. -/
def Model.from_name (s : String) : Option Model :=
  if s = "unspecified" then some .Unspecified
  else if s = "gemini-2.0-flash" then some .G2_0Flash
  else if s = "gemini-2.0-flash-thinking" then some .G2_0FlashThinking
  else if s = "gemini-2.5-flash" then some .G2_5Flash
  else if s = "gemini-2.5-pro" then some .G2_5Pro
  else if s = "gemini-2.0-exp-advanced" then some .G2_0ExpAdvanced
  else if s = "gemini-2.5-exp-advanced" then some .G2_5ExpAdvanced
  else none

/-- Error taxonomy (`error.rs::Error`).  The payloads of transport-level
variants (`reqwest::Error`, `io::Error`, `serde_json::Error`) are opaque
foreign values and are dropped. -/
inductive Err where
  | Authentication (msg : String)
  | Network
  | Parse (msg : String)
  | Timeout
  | Cookie (msg : String)
  | Io
  | JsonE
  | NotInitialized (msg : String)
  | Upload (msg : String)
deriving DecidableEq

/-- An alternative response choice (`client.rs::Choice`). -/
structure Choice where
  id : String
  content : String
deriving DecidableEq, Inhabited

/-- Response from a chat request (`client.rs::ChatResponse`). -/
structure ChatResponse where
  content : String
  conversation_id : String
  response_id : String
  factuality_queries : Option Json
  text_query : String
  choices : List Choice
  error : Bool

/-- Client session state (`client.rs::AsyncChatbot`).  The reqwest `Client`
handle is an opaque OS resource and is not part of the state the claims
speak about; all other fields are kept. -/
structure Chatbot where
  snlm0e : String
  conversation_id : String
  response_id : String
  choice_id : String
  reqid : Nat
  secure_1psidts : String
  model : Model
  proxy : Option String

/-- Saved conversation record (`client.rs::SavedConversation`). -/
structure SavedConversation where
  conversation_name : String
  reqid : Nat
  conversation_id : String
  response_id : String
  choice_id : String
  snlm0e : String
  model_name : String
  timestamp : String
deriving DecidableEq, Inhabited

/-- `u32` modulus: `reqid` arithmetic wraps at 2^32. -/
def M32 : Nat := 4294967296

/-! ## Response decoder (`AsyncChatbot::parse_response`) -/

/-- The 3-character security-prefix sentinel tested by the decoder. -/
def sentinel : String := ")]\x7d"

/-- The per-line cleanup inside the scan loop of `parse_response`: when the
line starts with the sentinel, the line is re-read from BYTE offset 4
(`line.get(4..).unwrap_or("")`) and trimmed. -/
def cleanLine (line : String) : String :=
  if strStarts line sentinel then rustTrim (utf8Drop line 4) else line

/-- Which string, if any, a raw line contributes to the JSON scan: empty
lines and the bare sentinel are skipped, the cleaned line is used only when
it starts with an opening bracket. -/
def lineCandidate (line : String) : Option String :=
  if line = "" ∨ line = sentinel then none
  else
    let c := cleanLine line
    if strStarts c "[" then some c else none

/-- The envelope-body test applied to one element of a parsed line
(`part_arr` in the source): tag check, length check, inner string parse and
inner shape check.  Returns the inner array. -/
def partBody (part : Json) : Option (List Json) :=
  match part.asArr with
  | none => none
  | some pa =>
    if pa.length > 2 ∧ (pa.head?.bind Json.asStr) = some "wrb.fr" then
      match (pa.get? 2).bind Json.asStr with
      | none => none
      | some inner =>
        match parseJson inner with
        | none => none
        | some mainPart =>
          match mainPart.asArr with
          | some a => if a.length > 4 ∧ (a.getD 4 .null).isNull = false then some a else none
          | none => none
    else none

/-- The inner loop over `arr` with its early `break`. -/
def scanParts : List Json → Option (List Json)
  | [] => none
  | p :: ps =>
    match partBody p with
    | some b => some b
    | none => scanParts ps

/-- What one raw line yields: cleanup, the JSON parse, the array check and
the part scan. -/
def lineBody (line : String) : Option (List Json) :=
  match lineCandidate line with
  | none => none
  | some clean =>
    match parseJson clean with
    | none => none
    | some v =>
      match v.asArr with
      | none => none
      | some parts => scanParts parts

/-- The outer loop over the lines with its early `break`. -/
def scanLines : List String → Option (List Json)
  | [] => none
  | l :: ls =>
    match lineBody l with
    | some b => some b
    | none => scanLines ls

/-- `o.and_then(Value::as_array).and_then(|a| a.get(i))`: one step of the
positional extraction chains. -/
def didx (o : Option Json) (i : Nat) : Option Json :=
  (o.bind Json.asArr).bind (fun a => a.get? i)

/-- One choice record extracted from a candidate with length over 1
(`None` for the candidates the source skips). -/
def choiceOf (cand : Json) : Option Choice :=
  match cand.asArr with
  | none => none
  | some ca =>
    if ca.length > 1 then
      some ⟨(ca.head?.bind Json.asStr).getD "",
            ((didx (ca.get? 1) 0).bind Json.asStr).getD ""⟩
    else none

/-- The extraction phase of `parse_response` (source lines 387-477): all
positional reads with their independent defaults, the Session update and
the constructed reply.  `delta` is the drawn `gen_range(1000..9000)` value;
the `u32` increment wraps at 2^32. -/
def extractReply (bot : Chatbot) (delta : Nat) (b : List Json) : ChatResponse × Chatbot :=
  let content := ((didx (didx (didx (b.get? 4) 0) 1) 0).bind Json.asStr).getD ""
  let conversation_id := ((didx (b.get? 1) 0).bind Json.asStr).getD bot.conversation_id
  let response_id := ((didx (b.get? 1) 1).bind Json.asStr).getD bot.response_id
  let factuality_queries := b.get? 3
  let text_query := ((didx (b.get? 2) 0).bind Json.asStr).getD ""
  let choices :=
    match (b.get? 4).bind Json.asArr with
    | some cands => cands.filterMap choiceOf
    | none => []
  let choice_id := (choices.head?.map Choice.id).getD bot.choice_id
  (⟨content, conversation_id, response_id, factuality_queries, text_query, choices, false⟩,
   { bot with
      conversation_id := conversation_id
      response_id := response_id
      choice_id := choice_id
      reqid := (bot.reqid + delta) % M32 })

/-- Model of `AsyncChatbot::parse_response`.  The outer `Option` models a
Rust panic (`none`): the only panic site is the byte slice
`&text[..text.len().min(200)]` in the under-3-lines diagnostic. -/
def parse_response (bot : Chatbot) (delta : Nat) (text : String) :
    Option (Except Err ChatResponse × Chatbot) :=
  let lines := rustLines text
  if lines.length < 3 then
    match byteTruncate text (min (utf8Len text) 200) with
    | none => none
    | some snip =>
      some (.error (.Parse ("Unexpected response format. Content: " ++ snip ++ "...")), bot)
  else
    match scanLines lines with
    | none => some (.error (.Parse "Failed to parse response body. No valid data found."), bot)
    | some b =>
      let rb := extractReply bot delta b
      some (.ok rb.1, rb.2)

/-! ## Token acquisition (`AsyncChatbot::get_snlm0e`) -/

/-- Is a character one of the two quote characters of the pattern class. -/
def isQuoteC (c : Char) : Bool := c = '"' || c = Char.ofNat 39

/-- Negation of the quote class (the capture class of the pattern). -/
def notQuote (c : Char) : Bool := !(isQuoteC c)

/-- Try the token pattern at the current position: quote, the literal
`SNlM0e`, quote, optional whitespace, colon, optional whitespace, quote,
then a non-empty run of non-quote characters up to a quote — the capture.
The repeated classes are disjoint from what follows them, so the greedy
regex match is deterministic and this direct translation is exact. -/
def matchTokenAt (cs : List Char) : Option (List Char) :=
  match cs with
  | q1 :: 'S' :: 'N' :: 'l' :: 'M' :: '0' :: 'e' :: q2 :: rest =>
    if isQuoteC q1 && isQuoteC q2 then
      match rest.dropWhile uniWs with
      | ':' :: r2 =>
        match r2.dropWhile uniWs with
        | q3 :: r4 =>
          if isQuoteC q3 then
            let cap := r4.takeWhile notQuote
            match r4.dropWhile notQuote with
            | q4 :: _ => if cap.isEmpty then none else if isQuoteC q4 then some cap else none
            | [] => none
          else none
        | [] => none
      | _ => none
    else none
  | _ => none

/-- Leftmost match of the token pattern (model of `Regex::captures` with
the SNlM0e pattern: quote class, the literal key, quote class, optional
whitespace, colon, optional whitespace, quote class, capture, quote
class). -/
def findTokenIn : List Char → Option (List Char)
  | [] => none
  | c :: cs =>
    match matchTokenAt (c :: cs) with
    | some cap => some cap
    | none => findTokenIn cs

/-- The three login-page marker substrings tested by `get_snlm0e`. -/
def hasLoginMarker (body : String) : Bool :=
  containsSub body "\"identifier-shown\"" ||
  containsSub body "SignIn?continue" ||
  containsSub body "Sign in - Google Accounts"

/-- Model of `AsyncChatbot::get_snlm0e` as a function of the received HTTP
status and body (source lines 186-228; the optional proactive cookie
rotation before the GET does not influence this classification).
`status.is_success()` is the 2xx range. -/
def get_snlm0e (status : Nat) (body : String) : Except Err String :=
  if ¬ (200 ≤ status ∧ status < 300) then
    if status = 401 ∨ status = 403 then
      .error (.Authentication ("Authentication failed (status " ++ Nat.repr status ++ "). Check cookies."))
    else
      .error (.Parse ("HTTP error: " ++ Nat.repr status))
  else if hasLoginMarker body then
    .error (.Authentication "Authentication failed. Cookies might be invalid or expired.")
  else
    match findTokenIn body.data with
    | some cap => .ok (String.mk cap)
    | none =>
      if containsSub body "429" then
        .error (.Parse "SNlM0e not found. Rate limit likely exceeded.")
      else
        .error (.Parse "SNlM0e value not found in response. Check cookie validity.")

/-- Whether a token-acquisition outcome is an Authentication failure. -/
def isAuthError (r : Except Err String) : Bool :=
  match r with
  | .error (.Authentication _) => true
  | _ => false

/-! ## Conversation protocol (`AsyncChatbot::ask`) -/

/-- The request `ask` would post to the generate endpoint: the nested
message structure, the `at` form field (session token) and the `_reqid`
query parameter.  (The double serialization of the payload to the wire
string is not modelled; no claim inspects the wire bytes.) -/
structure GenRequest where
  messageStruct : Json
  atToken : String
  reqidParam : Nat

/-- The payload built by `ask`: message text, attachment descriptor or
null, continuation triple. -/
def buildMessageStruct (bot : Chatbot) (message : String) (uploadId : Option String) : Json :=
  match uploadId with
  | some uid =>
    .arr [.arr [.str message],
          .arr [.arr [.arr [.str uid, .num "1"]]],
          .arr [.str bot.conversation_id, .str bot.response_id, .str bot.choice_id]]
  | none =>
    .arr [.arr [.str message],
          .null,
          .arr [.str bot.conversation_id, .str bot.response_id, .str bot.choice_id]]

/-- Outcome of the POST to the generate endpoint: transport failure
(including timeout) or a received status and body. -/
inductive NetOutcome where
  | failure
  | response (status : Nat) (body : String)

/-- Whether the injected upload outcome is a failed upload. -/
def isUploadFailure (image : Option (Except String String)) : Bool :=
  match image with
  | some (.error _) => true
  | _ => false

/-- The request-building and POST phase of `ask`, after the upload step:
builds the payload and the request, surfaces transport failures and
non-success statuses as Network errors, and otherwise hands the body to
the decoder.  The outer `Option` models a panic inside `parse_response`. -/
def askGen (bot : Chatbot) (message : String) (uploadId : Option String)
    (net : NetOutcome) (delta : Nat) :
    Option (Except Err ChatResponse × Chatbot × Option GenRequest) :=
  let req : GenRequest := ⟨buildMessageStruct bot message uploadId, bot.snlm0e, bot.reqid⟩
  match net with
  | .failure => some (.error .Network, bot, some req)
  | .response status body =>
    if 200 ≤ status ∧ status < 300 then
      match parse_response bot delta body with
      | none => none
      | some rb => some (rb.1, rb.2, some req)
    else
      some (.error .Network, bot, some req)

/-- Model of `AsyncChatbot::ask`.  `image` is `none` when no attachment is
passed, and otherwise carries the outcome `upload_file` would produce;
`net` is the outcome of the generate POST and `delta` the random nonce
increment.  The result carries the reply or error, the post-call session
state, and the request sent to the generate endpoint (`none` when the call
aborted before POSTing). -/
def ask (bot : Chatbot) (message : String) (image : Option (Except String String))
    (net : NetOutcome) (delta : Nat) :
    Option (Except Err ChatResponse × Chatbot × Option GenRequest) :=
  if bot.snlm0e = "" then
    some (.error (.NotInitialized "AsyncChatbot not properly initialized. SNlM0e is missing."),
          bot, none)
  else
    match image with
    | some (.error e) => some (.error (.Upload e), bot, none)
    | some (.ok uid) => askGen bot message (some uid) net delta
    | none => askGen bot message none net delta

/-! ## Session persistence (`save_conversation` / `load_conversation`) -/

/-- The record `save_conversation` builds from the current state (the
timestamp comes from the clock and is passed in). -/
def mkSaved (bot : Chatbot) (name timestamp : String) : SavedConversation :=
  ⟨name, bot.reqid, bot.conversation_id, bot.response_id, bot.choice_id,
   bot.snlm0e, bot.model.name, timestamp⟩

/-- The update-or-append loop of `save_conversation`: replace the first
record with a matching name, else append. -/
def upsertConv (data : SavedConversation) : List SavedConversation → List SavedConversation
  | [] => [data]
  | c :: cs =>
    if c.conversation_name = data.conversation_name then data :: cs
    else c :: upsertConv data cs

/-- Model of `AsyncChatbot::save_conversation`: the file is modelled by the
list of records it holds (absent file = empty list; the JSON round trip of
`serde` on these flat records is the identity on this model). -/
def save_conversation (bot : Chatbot) (name timestamp : String)
    (file : List SavedConversation) : List SavedConversation :=
  upsertConv (mkSaved bot name timestamp) file

/-- The scan-by-name loop of `load_conversation`. -/
def findConv (name : String) : List SavedConversation → Option SavedConversation
  | [] => none
  | c :: cs => if c.conversation_name = name then some c else findConv name cs

/-- Model of `AsyncChatbot::load_conversation`: returns the `Ok(bool)` and
the (possibly updated) session state. -/
def load_conversation (bot : Chatbot) (file : List SavedConversation) (name : String) :
    Bool × Chatbot :=
  match findConv name file with
  | some conv =>
    (true,
     { bot with
        reqid := conv.reqid
        conversation_id := conv.conversation_id
        response_id := conv.response_id
        choice_id := conv.choice_id
        snlm0e := conv.snlm0e
        model := match Model.from_name conv.model_name with
                 | some m => m
                 | none => bot.model })
  | none => (false, bot)

/-! ## Nonce arithmetic (`reqid`) -/

/-- The seeding range `gen_range(1000000..9999999)` of `AsyncChatbot::new`
and `reset`. -/
def validSeed (s : Nat) : Bool := 1000000 ≤ s && s < 9999999

/-- The advancing range `gen_range(1000..9000)` used after each successful
exchange. -/
def validDelta (d : Nat) : Bool := 1000 ≤ d && d < 9000

/-- One nonce advance: `self.reqid += delta` in `u32` arithmetic. -/
def nonceStep (r d : Nat) : Nat := (r + d) % M32

/-- The nonce values reachable from a given seed by successful exchanges. -/
inductive nonceReachable (s : Nat) : Nat → Prop where
  | seed (h : validSeed s = true) : nonceReachable s s
  | step (r d : Nat) (h : nonceReachable s r) (hd : validDelta d = true) :
      nonceReachable s (nonceStep r d)

/-! ## Specification-side formulations (used to state the claims) -/

/-- The envelope-body criterion exactly as the specification words it: a
sub-array whose first element is the literal string `wrb.fr` and whose
length exceeds 2, whose element at index 2 is a string that itself parses
as a JSON array with more than 4 elements and a non-null element at
index 4. -/
def partHitSpec (part : Json) : Option (List Json) :=
  match part with
  | .arr pa =>
    match pa.get? 0 with
    | some (.str tag) =>
      if pa.length > 2 ∧ tag = "wrb.fr" then
        match pa.get? 2 with
        | some (.str inner) =>
          match parseJson inner with
          | some (.arr a) =>
            if a.length > 4 ∧ (a.getD 4 Json.null).isNull = false then some a else none
          | _ => none
        | _ => none
      else none
    | _ => none
  | _ => none

/-- Line preprocessing as the claims word it, WITHOUT the
opening-bracket gate: skip empty and sentinel-only lines, clean
sentinel-prefixed lines. -/
def c1LineProcess (line : String) : Option String :=
  if line = "" then none
  else if line = sentinel then none
  else some (cleanLine line)

/-- First hit in line order, per the wording of the claim (no
opening-bracket gate on the lines). -/
def c1FirstHitSpec (text : String) : Option (List Json) :=
  (rustLines text).findSome? fun l =>
    (c1LineProcess l).bind fun c =>
      (parseJson c).bind fun v =>
        match v with
        | .arr parts => parts.findSome? partHitSpec
        | _ => none

/-- Candidate lines as the amended claim words them: empty and
sentinel-only lines skipped, sentinel-prefixed lines cleaned, and only
lines beginning with an opening bracket considered. -/
def gatedCandidate (line : String) : Option String :=
  if line = "" then none
  else if line = sentinel then none
  else
    let c := cleanLine line
    if strStarts c "[" then some c else none

/-- First hit in line order over the gated candidate lines (the amended
claim). -/
def c1FirstHitGated (text : String) : Option (List Json) :=
  (rustLines text).findSome? fun l =>
    (gatedCandidate l).bind fun c =>
      (parseJson c).bind fun v =>
        match v with
        | .arr parts => parts.findSome? partHitSpec
        | _ => none

/-- The string at envelope-body index 1, position `i`, as the claim words
it (`none` when that position is absent or not a string). -/
def pairStrAt (b : List Json) (i : Nat) : Option String :=
  match b.get? 1 with
  | some (.arr p) =>
    match p.get? i with
    | some (.str s) => some s
    | _ => none
  | _ => none

/-- Stripping "the sentinel plus the byte that follows it", worded at the
character level as in the amended claim: drop the three sentinel
characters, then one further single-byte character (empty when what
follows the sentinel starts with a multi-byte character or is empty). -/
def specStrip4 (line : String) : String :=
  match line.data with
  | _ :: _ :: _ :: c :: cs => if charSize c = 1 then String.mk cs else ""
  | _ => ""

/-! ## Concrete evaluation inputs -/

/-- A fixed session state used for concrete evaluations. -/
def bot0 : Chatbot := ⟨"tok", "", "", "", 1234567, "", .Unspecified, none⟩

/-- Response text whose third line parses as a JSON array satisfying the
envelope criterion but begins with a space, so the decoder skips it. -/
def c1Input : String := "0\n0\n [[\"wrb.fr\",null,\"[0,0,0,0,1]\"]]"

/-- A sentinel-prefixed line whose fourth byte is not part of the JSON
payload. -/
def c2Input : String := ")]\x7d'[1]"

/-- A single line of 199 one-byte characters followed by one two-byte
character: 201 bytes, and byte 200 falls inside the final character. -/
def c4Input : String := String.mk (List.replicate 199 'b' ++ [Char.ofNat 252])

/-- Same shape as `c4Input` with different content. -/
def c9Input : String := String.mk (List.replicate 199 'a' ++ [Char.ofNat 233])

/-- A response text carrying a full envelope with a continuation pair. -/
def c3Input : String := "h1\nh2\n[[\"wrb.fr\",null,\"[0,[\\\"cid\\\",\\\"rid\\\"],0,0,1]\"]]"

/-- A response text carrying a minimal valid envelope. -/
def c10Input : String := "p\nq\n[[\"wrb.fr\",null,\"[0,0,0,0,3]\"]]"

/-- A response text with three lines and no envelope. -/
def c1WitnessInput : String := "p\nq\nr"

/-- A response text with an envelope used by the scan-refinement witness. -/
def c3WitnessReply : ChatResponse :=
  ⟨"", "cid", "rid", some (.num "0"), "", [], false⟩

/-- The session state after decoding `c3Input` from `bot0`. -/
def c3WitnessBot : Chatbot := ⟨"tok", "cid", "rid", "", 1235567, "", .Unspecified, none⟩

/-- The reply decoded from `c10Input`. -/
def c10WitnessReply : ChatResponse :=
  ⟨"", "", "", some (.num "0"), "", [], false⟩

/-- The session state after decoding `c10Input` from `bot0`. -/
def c10WitnessBot : Chatbot := ⟨"tok", "", "", "", 1235567, "", .Unspecified, none⟩

/-- A session state with a token, used by the `ask` witness. -/
def botA : Chatbot := ⟨"tok2", "cv", "rs", "ch", 2000000, "", .G2_5Pro, none⟩

/-! ## Helper lemmas -/

theorem charSize_pos (c : Char) : 0 < charSize c := by
  unfold charSize
  repeat' split
  all_goals norm_num

theorem isPre_cons (p : Char) (ps l : List Char) (h : isPre (p :: ps) l = true) :
    ∃ t, l = p :: t ∧ isPre ps t = true := by
  cases l with
  | nil => simp [isPre] at h
  | cons c cs =>
    unfold isPre at h
    split at h
    · rename_i heq
      exact ⟨cs, by rw [heq], h⟩
    · exact absurd h (by simp)

theorem findConv_upsert (d : SavedConversation) (l : List SavedConversation) :
    findConv d.conversation_name (upsertConv d l) = some d := by
  induction l with
  | nil => simp [upsertConv, findConv]
  | cons c cs ih =>
    unfold upsertConv
    by_cases h : c.conversation_name = d.conversation_name
    · simp [h, findConv]
    · simp [findConv, h, ih]

theorem nonceReachable_lt (s r : Nat) (h : nonceReachable s r) : r < M32 := by
  induction h with
  | seed hs =>
    simp [validSeed] at hs
    unfold M32
    omega
  | step r d h hd ih =>
    unfold nonceStep
    exact Nat.mod_lt _ (by norm_num [M32])

theorem nonceReachable_k (s r : Nat) (h : nonceReachable s r) (n : Nat) :
    nonceReachable s ((r + 1000 * n) % M32) := by
  induction n with
  | zero =>
    simpa [Nat.mod_eq_of_lt (nonceReachable_lt s r h)] using h
  | succ n ih =>
    have hst := nonceReachable.step _ 1000 ih (by decide)
    have hrw : nonceStep ((r + 1000 * n) % M32) 1000 = (r + 1000 * (n + 1)) % M32 := by
      unfold nonceStep
      rw [Nat.mod_add_mod]
      unfold M32
      omega
    rwa [hrw] at hst

/-! ## Claim theorems -/

/-- Claim C5 (corrected), counterexample: with HTTP status 500 and a body
containing the login marker `SignIn?continue`, token acquisition fails with
a Parse error, not an Authentication error — the body is never inspected
for non-success statuses. -/
theorem c5_counterexample :
    isAuthError (get_snlm0e 500 "SignIn?continue") = false ∧
    get_snlm0e 500 "SignIn?continue" = .error (.Parse "HTTP error: 500") ∧
    hasLoginMarker "SignIn?continue" = true :=
  ⟨rfl, rfl, rfl⟩

/-- Claim C5 (amended): for every SUCCESSFUL (2xx) HTTP status, a body
containing a login-page marker makes token acquisition fail with an
Authentication error; statuses 401 and 403 fail with Authentication
regardless of the body, while for other non-success statuses the body is
not inspected. -/
theorem c5_markers (status : Nat) (body : String) :
    (200 ≤ status → status < 300 → hasLoginMarker body = true →
      get_snlm0e status body =
        .error (.Authentication "Authentication failed. Cookies might be invalid or expired.")) ∧
    (status = 401 ∨ status = 403 →
      get_snlm0e status body =
        .error (.Authentication
          ("Authentication failed (status " ++ Nat.repr status ++ "). Check cookies."))) := by
  constructor
  · intro h1 h2 hm
    unfold get_snlm0e
    rw [if_neg (not_not_intro ⟨h1, h2⟩), if_pos hm]
  · intro h
    have hns : ¬ (200 ≤ status ∧ status < 300) := by rcases h with rfl | rfl <;> omega
    unfold get_snlm0e
    rw [if_pos hns, if_pos h]

/-- Witness for `c5_markers` at a concrete successful status and marker. -/
theorem c5_markers_witness :
    get_snlm0e 200 "SignIn?continue" =
      .error (.Authentication "Authentication failed. Cookies might be invalid or expired.") :=
  (c5_markers 200 "SignIn?continue").1 (by decide) (by decide) rfl

/-- Claim C6 (corrected), counterexample: the nonce value 0 — which is not
positive — is reachable from the valid seed 1000000 by a sequence of valid
random deltas (4293959 advances of 1000 and one advance of 8296 reach
exactly 2^32, which wraps to 0 in `u32` arithmetic). -/
theorem c6_counterexample : nonceReachable 1000000 0 ∧ ¬ (0 : Nat) > 0 := by
  constructor
  · have h0 : nonceReachable 1000000 1000000 := .seed (by decide)
    have h1 := nonceReachable_k 1000000 1000000 h0 4293959
    rw [show (1000000 + 1000 * 4293959) % M32 = 4294959000 from by norm_num [M32]] at h1
    have h2 := nonceReachable.step _ 8296 h1 (by decide)
    rw [show nonceStep 4294959000 8296 = 0 from by norm_num [nonceStep, M32]] at h2
    exact h2
  · omega

/-- Claim C6 (amended): the nonce is SEEDED to a positive integer, and
after every successful exchange it differs from its prior value: for every
prior value below 2^32 and every delta in the advancing range, the wrapped
sum never equals the prior value.  (Positivity is not invariant: the nonce
can wrap to exactly zero, as the counterexample shows.) -/
theorem c6_nonce (s r d : Nat) :
    (validSeed s = true → 0 < s) ∧
    (r < M32 → validDelta d = true → nonceStep r d ≠ r) := by
  constructor
  · intro h
    simp [validSeed] at h
    omega
  · intro hr hd heq
    simp [validDelta] at hd
    unfold nonceStep at heq
    unfold M32 at hr heq
    omega

/-- Witness for `c6_nonce` at a concrete seed, prior value and delta. -/
theorem c6_nonce_witness : 0 < 1000000 ∧ nonceStep 5000000 1000 ≠ 5000000 :=
  ⟨(c6_nonce 1000000 5000000 1000).1 (by decide),
   (c6_nonce 1000000 5000000 1000).2 (by decide) (by decide)⟩

/-- Claim C8: saving a named conversation and then loading it by that name
on the resulting file returns true and restores the nonce, the
continuation triple and the session token to exactly the values held at
the time of saving — for every saving state, every loading state, every
prior file content and every name. -/
theorem c8_roundtrip (saver loader : Chatbot) (file : List SavedConversation)
    (name ts : String) :
    (load_conversation loader (save_conversation saver name ts file) name).1 = true ∧
    (load_conversation loader (save_conversation saver name ts file) name).2.reqid = saver.reqid ∧
    (load_conversation loader (save_conversation saver name ts file) name).2.conversation_id = saver.conversation_id ∧
    (load_conversation loader (save_conversation saver name ts file) name).2.response_id = saver.response_id ∧
    (load_conversation loader (save_conversation saver name ts file) name).2.choice_id = saver.choice_id ∧
    (load_conversation loader (save_conversation saver name ts file) name).2.snlm0e = saver.snlm0e := by
  have hf : findConv name (upsertConv (mkSaved saver name ts) file) =
      some (mkSaved saver name ts) := findConv_upsert (mkSaved saver name ts) file
  unfold load_conversation save_conversation
  rw [hf]
  simp [mkSaved]

theorem partBody_eq_spec (p : Json) : partBody p = partHitSpec p := by
  cases p <;> try rfl
  rename_i pa
  cases pa with
  | nil => rfl
  | cons x xs =>
    cases x with
    | str tag =>
      simp only [partBody, partHitSpec, Json.asArr, Json.asStr, List.head?,
        Option.some_bind, Option.some.injEq, List.get?]
      by_cases hcond : (Json.str tag :: xs).length > 2 ∧ tag = "wrb.fr"
      · rw [if_pos hcond, if_pos hcond]
        cases hx : xs.get? 1 with
        | none => rfl
        | some y =>
          cases y <;> try rfl
          rename_i inner
          dsimp only [Option.some_bind]
          cases hp : parseJson inner with
          | none => rfl
          | some v => cases v <;> rfl
      · rw [if_neg hcond, if_neg hcond]
    | null => simp [partBody, partHitSpec, Json.asArr, Json.asStr]
    | bool b => simp [partBody, partHitSpec, Json.asArr, Json.asStr]
    | num m => simp [partBody, partHitSpec, Json.asArr, Json.asStr]
    | arr l => simp [partBody, partHitSpec, Json.asArr, Json.asStr]
    | obj o => simp [partBody, partHitSpec, Json.asArr, Json.asStr]

theorem scanParts_eq (ps : List Json) : scanParts ps = ps.findSome? partHitSpec := by
  induction ps with
  | nil => rfl
  | cons p ps ih =>
    simp only [scanParts, List.findSome?]
    rw [partBody_eq_spec]
    cases partHitSpec p <;> simp [ih]

theorem lineCandidate_eq_gated (l : String) : lineCandidate l = gatedCandidate l := by
  unfold lineCandidate gatedCandidate
  by_cases h1 : l = "" <;> by_cases h2 : l = sentinel <;> simp [h1, h2]

theorem lineBody_eq (l : String) :
    lineBody l = (gatedCandidate l).bind fun c =>
      (parseJson c).bind fun v =>
        match v with
        | .arr parts => parts.findSome? partHitSpec
        | _ => none := by
  unfold lineBody
  rw [lineCandidate_eq_gated]
  cases gatedCandidate l with
  | none => rfl
  | some c =>
    dsimp only [Option.some_bind]
    cases parseJson c with
    | none => rfl
    | some v => cases v <;> simp [Json.asArr, scanParts_eq]

theorem scanLines_eq (ls : List String) :
    scanLines ls = ls.findSome? (fun l =>
      (gatedCandidate l).bind fun c =>
        (parseJson c).bind fun v =>
          match v with
          | .arr parts => parts.findSome? partHitSpec
          | _ => none) := by
  induction ls with
  | nil => rfl
  | cons l ls ih =>
    simp only [scanLines, List.findSome?]
    rw [lineBody_eq]
    cases (gatedCandidate l).bind (fun c =>
      (parseJson c).bind fun v =>
        match v with
        | .arr parts => parts.findSome? partHitSpec
        | _ => none) <;> simp [ih]

theorem pairStr_eq (b : List Json) (i : Nat) :
    (didx (b.get? 1) i).bind Json.asStr = pairStrAt b i := by
  unfold didx pairStrAt
  cases hb : b.get? 1 with
  | none => rfl
  | some v =>
    cases v <;> try rfl
    rename_i p
    dsimp only [Option.some_bind, Json.asArr]
    cases hp : p.get? i with
    | none => rfl
    | some y => cases y <;> rfl

theorem parse_response_ok (bot : Chatbot) (delta : Nat) (text : String) (r : ChatResponse)
    (bot' : Chatbot) (h : parse_response bot delta text = some (.ok r, bot')) :
    ∃ b, scanLines (rustLines text) = some b ∧ r = (extractReply bot delta b).1 ∧
      bot' = (extractReply bot delta b).2 := by
  simp only [parse_response] at h
  by_cases hlen : (rustLines text).length < 3
  · rw [if_pos hlen] at h
    split at h
    · exact Option.noConfusion h
    · simp at h
  · rw [if_neg hlen] at h
    cases hb : scanLines (rustLines text) with
    | none => rw [hb] at h; simp at h
    | some b =>
      rw [hb] at h
      simp only [Option.some.injEq, Prod.mk.injEq, Except.ok.injEq] at h
      exact ⟨b, rfl, h.1.symm, h.2.symm⟩

theorem parse_response_err_state (bot : Chatbot) (delta : Nat) (text : String) (e : Err)
    (bot' : Chatbot) (h : parse_response bot delta text = some (.error e, bot')) :
    bot' = bot := by
  simp only [parse_response] at h
  by_cases hlen : (rustLines text).length < 3
  · rw [if_pos hlen] at h
    split at h
    · exact Option.noConfusion h
    · simp only [Option.some.injEq, Prod.mk.injEq] at h
      exact h.2.symm
  · rw [if_neg hlen] at h
    cases hb : scanLines (rustLines text) with
    | none =>
      rw [hb] at h
      simp only [Option.some.injEq, Prod.mk.injEq] at h
      exact h.2.symm
    | some b =>
      rw [hb] at h
      simp at h

theorem cleanLine_eq_specStrip (line : String) (h : strStarts line sentinel = true) :
    cleanLine line = rustTrim (specStrip4 line) := by
  have hss := h
  unfold strStarts at h
  have hsd : sentinel.data = [')', ']', Char.ofNat 125] := rfl
  rw [hsd] at h
  obtain ⟨t1, e1, h⟩ := isPre_cons _ _ _ h
  obtain ⟨t2, e2, h⟩ := isPre_cons _ _ _ h
  obtain ⟨t3, e3, _⟩ := isPre_cons _ _ _ h
  subst e3
  subst e2
  have key : utf8Drop line 4 = specStrip4 line := by
    unfold utf8Drop specStrip4
    rw [e1]
    have hstep : utf8DropB (')' :: ']' :: Char.ofNat 125 :: t3) 4 = utf8DropB t3 1 := rfl
    rw [hstep]
    cases t3 with
    | nil => rfl
    | cons c cs =>
      have hred : utf8DropB (c :: cs) 1 =
          if charSize c ≤ 1 then utf8DropB cs (1 - charSize c) else none := rfl
      by_cases hc : charSize c = 1
      · simp [hred, hc, utf8DropB]
      · have h2 : 2 ≤ charSize c := by
          have := charSize_pos c
          omega
        have hnle : ¬ charSize c ≤ 1 := by omega
        simp [hred, hnle, hc]
  unfold cleanLine
  rw [if_pos hss, key]

theorem extractReply_state (bot : Chatbot) (delta : Nat) (b : List Json) :
    (extractReply bot delta b).2.conversation_id =
      ((didx (b.get? 1) 0).bind Json.asStr).getD bot.conversation_id ∧
    (extractReply bot delta b).2.response_id =
      ((didx (b.get? 1) 1).bind Json.asStr).getD bot.response_id :=
  ⟨rfl, rfl⟩

theorem askGen_err (bot : Chatbot) (message : String) (uploadId : Option String)
    (net : NetOutcome) (delta : Nat) (e : Err) (bot' : Chatbot) (req : Option GenRequest)
    (h : askGen bot message uploadId net delta = some (.error e, bot', req)) :
    bot' = bot := by
  simp only [askGen] at h
  split at h
  · simp only [Option.some.injEq, Prod.mk.injEq] at h
    exact h.2.1.symm
  · rename_i status body
    by_cases hst : 200 ≤ status ∧ status < 300
    · rw [if_pos hst] at h
      split at h
      · exact Option.noConfusion h
      · rename_i rb hp
        obtain ⟨rb1, rb2⟩ := rb
        simp only [Option.some.injEq, Prod.mk.injEq] at h
        obtain ⟨h1, h2, -⟩ := h
        subst h1
        subst h2
        exact parse_response_err_state bot delta body e rb2 hp
    · rw [if_neg hst] at h
      simp only [Option.some.injEq, Prod.mk.injEq] at h
      exact h.2.1.symm

set_option maxRecDepth 1000000

/-- Claim C1 (corrected), counterexample: a three-line response text whose
third line parses as a JSON array satisfying the envelope criterion of the
claim but begins with a space.  The claim as stated selects that body, yet
the decoder skips lines not beginning with a bracket and returns a Parse
failure. -/
theorem c1_counterexample :
    c1FirstHitSpec c1Input =
      some [Json.num "0", Json.num "0", Json.num "0", Json.num "0", Json.num "1"] ∧
    parse_response bot0 1000 c1Input =
      some (.error (.Parse "Failed to parse response body. No valid data found."), bot0) :=
  ⟨rfl, rfl⟩

/-- Claim C1 (amended): for a text with at least 3 lines the decoder
selects as envelope body the first hit in line order among the
preprocessed candidate lines THAT BEGIN WITH an opening bracket — the hit
criterion being exactly the one the claim states — and returns a Parse
failure when no such line yields a body. -/
theorem c1_first_hit (bot : Chatbot) (delta : Nat) (text : String)
    (h3 : 3 ≤ (rustLines text).length) :
    scanLines (rustLines text) = c1FirstHitGated text ∧
    (c1FirstHitGated text = none →
      parse_response bot delta text =
        some (.error (.Parse "Failed to parse response body. No valid data found."), bot)) := by
  have hEq : scanLines (rustLines text) = c1FirstHitGated text := by
    unfold c1FirstHitGated
    exact scanLines_eq (rustLines text)
  refine ⟨hEq, fun hnone => ?_⟩
  simp only [parse_response]
  rw [if_neg (by omega), hEq, hnone]

/-- Witness for `c1_first_hit` on a concrete three-line text without an
envelope. -/
theorem c1_first_hit_witness :
    (3 ≤ (rustLines c1WitnessInput).length) ∧
    scanLines (rustLines c1WitnessInput) = c1FirstHitGated c1WitnessInput ∧
    parse_response bot0 1000 c1WitnessInput =
      some (.error (.Parse "Failed to parse response body. No valid data found."), bot0) :=
  ⟨by decide, (c1_first_hit bot0 1000 c1WitnessInput (by decide)).1,
    (c1_first_hit bot0 1000 c1WitnessInput (by decide)).2 rfl⟩

/-- Claim C2 (corrected), counterexample: on a line consisting of the
sentinel, an apostrophe and `[1]`, the decoder considers `[1]` — it strips
FOUR BYTES, the sentinel plus the byte after it — while stripping exactly
the 3-character sentinel and trimming, as the claim states, would leave
the apostrophe in place. -/
theorem c2_counterexample :
    lineCandidate c2Input = some "[1]" ∧
    rustTrim (String.mk (c2Input.data.drop 3)) = "'[1]" ∧
    ("[1]" : String) ≠ "'[1]" :=
  ⟨rfl, rfl, by decide⟩

/-- Claim C2 (amended): empty lines and bare sentinel lines are skipped;
a line beginning with the sentinel has the sentinel PLUS THE FOLLOWING
BYTE stripped (empty remainder when the line ends there or when byte
offset 4 is not a character boundary) and the remainder trimmed; the
cleaned line is then considered only if it begins with an opening
bracket. -/
theorem c2_strip (line : String) :
    ((line = "" ∨ line = sentinel) → lineCandidate line = none) ∧
    (strStarts line sentinel = true → line ≠ sentinel →
      cleanLine line = rustTrim (specStrip4 line)) ∧
    (line ≠ "" → line ≠ sentinel →
      lineCandidate line =
        if strStarts (cleanLine line) "[" then some (cleanLine line) else none) := by
  refine ⟨?_, ?_, ?_⟩
  · intro h
    unfold lineCandidate
    rw [if_pos h]
  · intro h _
    exact cleanLine_eq_specStrip line h
  · intro h1 h2
    unfold lineCandidate
    rw [if_neg (by rintro (hc | hc); exacts [h1 hc, h2 hc])]

/-- Witness for `c2_strip` on a concrete sentinel-prefixed line. -/
theorem c2_strip_witness : cleanLine c2Input = rustTrim (specStrip4 c2Input) :=
  (c2_strip c2Input).2.1 (by decide) (by decide)

/-- Claim C3: whenever the decoder succeeds, the conversation id and
response id held in the session afterwards equal the strings at
envelope-body index 1, positions 0 and 1 respectively, each falling back
to the previously held value when that position is absent or not a
string. -/
theorem c3_continuation (bot : Chatbot) (delta : Nat) (text : String) (r : ChatResponse)
    (bot' : Chatbot) (h : parse_response bot delta text = some (.ok r, bot')) :
    bot'.conversation_id =
      (pairStrAt ((scanLines (rustLines text)).getD []) 0).getD bot.conversation_id ∧
    bot'.response_id =
      (pairStrAt ((scanLines (rustLines text)).getD []) 1).getD bot.response_id := by
  obtain ⟨b, hb, -, hbot⟩ := parse_response_ok bot delta text r bot' h
  rw [hb]
  simp only [Option.getD_some]
  subst hbot
  rw [← pairStr_eq, ← pairStr_eq]
  exact extractReply_state bot delta b

/-- Witness for `c3_continuation` on a concrete envelope carrying the pair
`cid`, `rid`. -/
theorem c3_continuation_witness :
    c3WitnessBot.conversation_id =
      (pairStrAt ((scanLines (rustLines c3Input)).getD []) 0).getD bot0.conversation_id ∧
    c3WitnessBot.response_id =
      (pairStrAt ((scanLines (rustLines c3Input)).getD []) 1).getD bot0.response_id :=
  c3_continuation bot0 1000 c3Input c3WitnessReply c3WitnessBot rfl

/-- Claim C4 (code bug): on a single-line text of 199 one-byte characters
followed by one two-byte character, the decoder does not return the Parse
error the claim describes: building the diagnostic snippet slices the text
at byte 200, which is not a character boundary, and the code panics. -/
theorem c4_panic : parse_response bot0 1000 c4Input = none := rfl

/-- Claim C7: every failing `ask` call — missing session token, upload
failure, transport failure, non-success status, or decoder Parse failure —
leaves the session state unchanged, and an upload failure aborts the
exchange before any request to the generate endpoint is built. -/
theorem c7_no_mutation_on_failure (bot : Chatbot) (message : String)
    (image : Option (Except String String)) (net : NetOutcome) (delta : Nat)
    (e : Err) (bot' : Chatbot) (req : Option GenRequest)
    (h : ask bot message image net delta = some (.error e, bot', req)) :
    bot' = bot ∧ (isUploadFailure image = true → req = none) := by
  unfold ask at h
  by_cases hs : bot.snlm0e = ""
  · rw [if_pos hs] at h
    simp only [Option.some.injEq, Prod.mk.injEq] at h
    exact ⟨h.2.1.symm, fun _ => h.2.2.symm⟩
  · rw [if_neg hs] at h
    cases image with
    | none =>
      refine ⟨askGen_err _ _ _ _ _ _ _ _ h, ?_⟩
      intro hcon
      simp [isUploadFailure] at hcon
    | some u =>
      cases u with
      | ok uid =>
        refine ⟨askGen_err _ _ _ _ _ _ _ _ h, ?_⟩
        intro hcon
        simp [isUploadFailure] at hcon
      | error emsg =>
        simp only [Option.some.injEq, Prod.mk.injEq] at h
        exact ⟨h.2.1.symm, fun _ => h.2.2.symm⟩

/-- Witness for `c7_no_mutation_on_failure` on a concrete failed upload. -/
theorem c7_witness :
    botA = botA ∧
    (isUploadFailure (some (.error "upload boom")) = true → (none : Option GenRequest) = none) :=
  c7_no_mutation_on_failure botA "hi" (some (.error "upload boom")) .failure 1000
    (.Upload "upload boom") botA none rfl

/-- Claim C9 (code bug): the decoder is not total — on a single-line text
of 199 one-byte characters followed by one two-byte character the
truncated-snippet slice `&text[..200]` falls inside the final character
and the code panics instead of returning a value. -/
theorem c9_panic : parse_response bot0 1000 c9Input = none := rfl

/-- Claim C10: every reply the decoder accepts has its failure flag equal
to false. -/
theorem c10_error_flag (bot : Chatbot) (delta : Nat) (text : String) (r : ChatResponse)
    (bot' : Chatbot) (h : parse_response bot delta text = some (.ok r, bot')) :
    r.error = false := by
  obtain ⟨b, -, hr, -⟩ := parse_response_ok bot delta text r bot' h
  subst hr
  rfl

/-- Witness for `c10_error_flag` on a concrete accepted response. -/
theorem c10_error_flag_witness : c10WitnessReply.error = false :=
  c10_error_flag bot0 1000 c10Input c10WitnessReply c10WitnessBot rfl
